import Mathlib

/-!
A shallow embedding of the Invoice Chat application: the Express gateway
endpoints (`/api/health`, `/api/query`) and the React conversation
controller (`handleSend`, `handleRating`, `handleHistoryClick`), together
with theorems settling the specification claims about them.

The JavaScript string primitives used by the code (`toUpperCase`,
`includes`, `trim`, falsy-`||`) are modelled structurally on the
underlying character lists so that every definition is executable by the
kernel.  All source strings involved are ASCII, where these models agree
with the JavaScript semantics.
-/

namespace InvoiceChat

/-- JavaScript `s.toUpperCase()`, modelled as a character-wise map. -/
def jsToUpperCase (s : String) : String := ⟨s.data.map Char.toUpper⟩

/-- JavaScript `s.includes(pat)`: substring containment. -/
def strIncludes (s pat : String) : Bool := decide (pat.data <:+: s.data)

/-- JavaScript `s.trim()`: strip leading and trailing whitespace. -/
def jsTrim (s : String) : String :=
  ⟨((s.data.dropWhile Char.isWhitespace).reverse.dropWhile Char.isWhitespace).reverse⟩

/-- JavaScript falsy-or `x || d` on an optional string: `undefined` (`none`)
and the empty string are falsy. -/
def jsOr (x : Option String) (d : String) : String :=
  match x with
  | none => d
  | some s => if s = "" then d else s

/-- JavaScript truthiness test `!sql` for an optional string field of a
parsed JSON body: absent (`undefined`) and the empty string are falsy. -/
def jsFalsy : Option String → Bool
  | none => true
  | some s => decide (s = "")

/-- A database value as surfaced by the `pg` driver (enough structure for
the claims; the claims never inspect individual cell values). -/
inductive DbValue
  | str (s : String)
  | num (n : Int)
  | null
deriving DecidableEq

/-- One result row: a mapping column name → value, as in `result.rows`. -/
abbrev Row := List (String × DbValue)

/-- The success payload of `client.query(sql)`: `result.rows`,
`result.rowCount`, and `result.fields` projected to their names. -/
structure QueryResult where
  rows : List Row
  rowCount : Int
  fields : List String
deriving DecidableEq

/-- The behaviour of the connection pool and database during one request:
`connect` models `pool.connect()` (`.error m` = the promise rejects with
message `m`), and `query sql` models `client.query(sql)`. -/
structure DbBehavior where
  connect : Except String Unit
  query : String → Except String QueryResult

/-- Body of a JSON response from the `/api/query` endpoint: either the
success shape `{rows, rowCount, fields}` or the failure shape `{error}`.
The two shapes are distinct constructors: a success body carries no error
string and a failure body carries no rows or fields. -/
inductive RespBody
  | success (rows : List Row) (rowCount : Int) (fields : List String)
  | failure (error : String)
deriving DecidableEq

/-- An HTTP response: status code plus JSON body.  `res.json(x)` with no
explicit status is status 200. -/
structure HttpResponse where
  status : Nat
  body : RespBody
deriving DecidableEq

/-- The observable trace of one `/api/query` request: the response sent,
and how many pool connections were acquired (`pool.connect()` resolved)
and released (`client.release()`) while serving it. -/
structure GatewayTrace where
  resp : HttpResponse
  acquired : Nat
  released : Nat
deriving DecidableEq

def SQL_REQUIRED_MSG : String := "SQL query is required"

/-- Policy-violation message of the first (non-SSL) server variant. -/
def POLICY_MSG : String :=
  "MODO SOLO LECTURA: Por seguridad solo se permiten consultas SELECT."

/-- Policy-violation message of the second (SSL) server variant. -/
def POLICY_MSG_SSL : String :=
  "READ-ONLY MODE: Solo se permiten consultas SELECT por seguridad."

/-- The five keywords whose space-suffixed forms the gateway scans for. -/
def DENY_KEYWORDS : List String := ["DROP", "DELETE", "TRUNCATE", "UPDATE", "INSERT"]

/-- The denylist check of the gateway:
`upperSql.includes('DROP ') || upperSql.includes('DELETE ') || ...`
where `upperSql = sql.toUpperCase()`. -/
def denylisted (sql : String) : Bool :=
  DENY_KEYWORDS.any (fun kw => strIncludes (jsToUpperCase sql) (kw ++ " "))

/-- `app.post('/api/query')`, parametrised by the policy message (the two
server variants in the source are identical except for SSL configuration
and this message).  Mirrors the handler line by line:
`if (!sql)` → 400; denylist match → 403 before `pool.connect()`;
otherwise acquire a client, run the query, answer 200 with
`{rows, rowCount, fields}` or 400 with `{error: err.message}`, and in the
`finally` block release the client when one was acquired (when
`pool.connect()` itself rejected, `client` is still `undefined` and the
`finally` block releases nothing). -/
def apiQueryHandlerWith (policyMsg : String) (db : DbBehavior) (sql : Option String) :
    GatewayTrace :=
  if jsFalsy sql then
    ⟨⟨400, .failure SQL_REQUIRED_MSG⟩, 0, 0⟩
  else
    let s := sql.getD ""
    if denylisted s then
      ⟨⟨403, .failure policyMsg⟩, 0, 0⟩
    else
      match db.connect with
      | .error msg => ⟨⟨400, .failure msg⟩, 0, 0⟩
      | .ok _ =>
        match db.query s with
        | .ok r => ⟨⟨200, .success r.rows r.rowCount r.fields⟩, 1, 1⟩
        | .error msg => ⟨⟨400, .failure msg⟩, 1, 1⟩

/-- The `/api/query` endpoint of the first (non-SSL) server variant. -/
def apiQueryHandler : DbBehavior → Option String → GatewayTrace :=
  apiQueryHandlerWith POLICY_MSG

/-- Body of a `/api/health` response: `{status:'connected', time}` or
`{status:'error', message, detail}`. -/
inductive HealthBody
  | connected (time : Option DbValue)
  | failed (message : String) (detail : String)
deriving DecidableEq

/-- The observable trace of one `/api/health` request. -/
structure HealthTrace where
  status : Nat
  body : HealthBody
  acquired : Nat
  released : Nat
deriving DecidableEq

def HEALTH_DETAIL : String := "No se pudo conectar al servidor PostgreSQL."

/-- `app.get('/api/health')` (identical in both server variants).  The
handler acquires a client, runs `SELECT NOW()`, calls `client.release()`
on the success path only, and answers from `result.rows[0].now`; any
thrown error lands in the catch block, which answers 500 without
releasing.  When the query succeeds with zero rows, `result.rows[0]` is
`undefined` and reading `.now` throws a TypeError — but only after the
release on the line above has already run. -/
def apiHealthHandler (db : DbBehavior) : HealthTrace :=
  match db.connect with
  | .error msg => ⟨500, .failed msg HEALTH_DETAIL, 0, 0⟩
  | .ok _ =>
    match db.query "SELECT NOW()" with
    | .error msg => ⟨500, .failed msg HEALTH_DETAIL, 1, 0⟩
    | .ok r =>
      match r.rows.head? with
      | none =>
        ⟨500, .failed "Cannot read properties of undefined (reading now)" HEALTH_DETAIL, 1, 1⟩
      | some row => ⟨200, .connected (row.lookup "now"), 1, 1⟩

/-- `'user' | 'model'`. -/
inductive ChatRole
  | user
  | model
deriving DecidableEq

/-- `interface TableData` from the source. -/
structure TableData where
  rows : List Row
  fields : List String
deriving DecidableEq

/-- `interface ChatMessage` from the source.  `text` is declared `string`
in TypeScript but can hold `undefined` at runtime (`text: explanation`
where `explanation` was absent from the parsed JSON), so it is modelled
as `Option String` with `none` for `undefined`. -/
structure ChatMessage where
  id : String
  role : ChatRole
  text : Option String
  sql : Option String := none
  data : Option TableData := none
  error : Option String := none
  executionTime : Option Nat := none
  rating : Option Nat := none
  isThinking : Bool := false
deriving DecidableEq

/-- The controller state relevant to the claims: the `messages`,
`inputText` and `isProcessing` React state, plus whether
`chatSessionRef.current` is set.  (The model selector and the two
connection-status indicators do not feed into any claim.) -/
structure AppState where
  messages : List ChatMessage
  inputText : String
  isProcessing : Bool
  hasChatSession : Bool
deriving DecidableEq

/-- Outcome of the generate step of one turn
(`chatSession.sendMessage` followed by `JSON.parse` and destructuring):
`sendThrows` = the send rejects (transport failure);
`parseThrows` = `JSON.parse(result.text)` throws on non-JSON text, or the
parsed value is `null` and destructuring it throws;
`parsed sqlQuery explanation` = the destructured fields, `none` modelling
a field absent from the parsed object (`undefined`). -/
inductive GenOutcome
  | sendThrows (msg : String)
  | parseThrows (msg : String)
  | parsed (sqlQuery explanation : Option String)
deriving DecidableEq

/-- Outcome of the `fetch('/api/query', ...)` step:
`fetchThrows` = the fetch itself rejects;
`nonJsonBody ok text` = a response whose content type is not
`application/json` (the handler then throws);
`jsonBody ok rows fields error` = a JSON response with `dbRes.ok`, and the
fields read from the parsed body (`none` = absent). -/
inductive FetchOutcome
  | fetchThrows (msg : String)
  | nonJsonBody (ok : Bool) (text : String)
  | jsonBody (ok : Bool) (rows : List Row) (fields : List String) (error : Option String)
deriving DecidableEq

/-- The environment of one `handleSend` run: the generate outcome, the
execute outcome, and the measured wall-clock duration of the execute
step. -/
structure SendEnv where
  gen : GenOutcome
  fetch : FetchOutcome
  elapsed : Nat
deriving DecidableEq

/-- `setMessages(prev => prev.map(m => m.id === mid ? f(m) : m))`. -/
def updateMsg (msgs : List ChatMessage) (mid : String) (f : ChatMessage → ChatMessage) :
    List ChatMessage :=
  msgs.map (fun m => if m.id = mid then f m else m)

def APOLOGY : String := "Lo siento, tuve un problema procesando tu solicitud."

def INVALID_SERVER_RESP : String := "Respuesta del servidor no válida: "

def EXEC_ERR_FALLBACK : String := "Error ejecutando consulta"

/-- The `catch` block of `handleSend`: settle the placeholder with
`isThinking := false`, `text := m.text || apology`, and the caught
error's message. -/
def catchUpdate (msgs : List ChatMessage) (mid : String) (errMsg : String) :
    List ChatMessage :=
  updateMsg msgs mid (fun m =>
    { m with isThinking := false, text := some (jsOr m.text APOLOGY), error := some errMsg })

/-- The early-return guard of `handleSend`:
`!textToSend.trim() || isProcessing || !chatSessionRef.current`
where `textToSend = overrideText || inputText`. -/
def guardBlocks (st : AppState) (overrideText : Option String) : Bool :=
  decide (jsTrim (jsOr overrideText st.inputText) = "") || st.isProcessing ||
    !st.hasChatSession

/-- Steps 1–2 of `handleSend` after the guard passes: append the user
message and the thinking placeholder, clear the input, and set the
in-flight flag. -/
def handleSendStart (st : AppState) (overrideText : Option String) (uid mid : String) :
    AppState :=
  let textToSend := jsOr overrideText st.inputText
  { st with
    messages := st.messages ++
      [ { id := uid, role := .user, text := some textToSend },
        { id := mid, role := .model, text := some "", isThinking := true } ],
    inputText := "",
    isProcessing := true }

/-- The result of one `handleSend` run: the final React state, whether the
execute step (`fetch('/api/query')`) was reached, and — when it was — the
`sql` value serialised into the request body (`some none` = the body
carried no usable `sql`, i.e. `JSON.stringify({sql: undefined})`). -/
structure SendResult where
  state : AppState
  executeCalled : Bool
  executeBody : Option (Option String)
deriving DecidableEq

/-- Steps 3–6 of `handleSend` (the `try`/`catch`/`finally`): consume the
generate outcome; on success update the placeholder's `text`/`sql` and
immediately issue the execute fetch; settle the placeholder from the
fetch outcome; the `finally` clears `isProcessing` on every path. -/
def handleSendSettle (st : AppState) (mid : String) (env : SendEnv) : SendResult :=
  match env.gen with
  | .sendThrows msg =>
    ⟨{ st with messages := catchUpdate st.messages mid msg, isProcessing := false },
      false, none⟩
  | .parseThrows msg =>
    ⟨{ st with messages := catchUpdate st.messages mid msg, isProcessing := false },
      false, none⟩
  | .parsed sqlQuery explanation =>
    let msgs1 := updateMsg st.messages mid
      (fun m => { m with text := explanation, sql := sqlQuery })
    match env.fetch with
    | .fetchThrows msg =>
      ⟨{ st with messages := catchUpdate msgs1 mid msg, isProcessing := false },
        true, some sqlQuery⟩
    | .nonJsonBody _ body =>
      let caught := catchUpdate msgs1 mid (INVALID_SERVER_RESP ++ body)
      ⟨{ st with messages := caught, isProcessing := false }, true, some sqlQuery⟩
    | .jsonBody ok rows fields err =>
      let msgs2 := updateMsg msgs1 mid (fun m =>
        { m with isThinking := false,
                 data := if ok then some ⟨rows, fields⟩ else none,
                 error := if ok then none else some (jsOr err EXEC_ERR_FALLBACK),
                 executionTime := some env.elapsed })
      ⟨{ st with messages := msgs2, isProcessing := false }, true, some sqlQuery⟩

/-- The whole of `handleSend` as one atomic state transformer. -/
def handleSend (st : AppState) (overrideText : Option String) (env : SendEnv)
    (uid mid : String) : SendResult :=
  if guardBlocks st overrideText then ⟨st, false, none⟩
  else handleSendSettle (handleSendStart st overrideText uid mid) mid env

/-- `handleRating` from the source. -/
def handleRating (st : AppState) (msgId : String) (rating : Nat) : AppState :=
  { st with messages :=
      st.messages.map (fun m => if m.id = msgId then { m with rating := some rating } else m) }

/-- `handleHistoryClick`: replay a prior utterance through `handleSend`
unless a turn is in flight. -/
def handleHistoryClick (st : AppState) (text : String) (env : SendEnv) (uid mid : String) :
    SendResult :=
  if st.isProcessing then ⟨st, false, none⟩
  else handleSend st (some text) env uid mid

/-- Typing into the input box. -/
def setInputText (st : AppState) (t : String) : AppState := { st with inputText := t }

def INIT_GREETING : String :=
  "Hola. Soy tu analista de datos de OneGlobe. ¿En qué puedo ayudarte hoy con las facturas o el plan de ventas?"

/-- The greeting message the `messages` state is initialised with. -/
def initMessage : ChatMessage := { id := "init", role := .model, text := some INIT_GREETING }

/-- The initial React state (`chatSessionRef.current` starts `null`). -/
def initState : AppState :=
  { messages := [initMessage], inputText := "", isProcessing := false,
    hasChatSession := false }

/-- A demonstration database behaviour: the pool connects and every query
succeeds with an empty result set. -/
def dbDemo : DbBehavior := ⟨.ok (), fun _ => .ok ⟨[], 0, []⟩⟩

/-- A demonstration database behaviour: the pool connects and every query
throws. -/
def dbFailDemo : DbBehavior := ⟨.ok (), fun _ => .error "relation does not exist"⟩

/-- A controller configuration: the React state, plus the identifier of
the placeholder message of a turn whose `handleSend` has run its start
phase but not yet its settle phase (the suspended continuation), if any. -/
structure UiConfig where
  app : AppState
  pending : Option String
deriving DecidableEq

def initConfig : UiConfig := ⟨initState, none⟩

/-- One atomic event of the controller.  A `handleSend` call is two events:
its synchronous start phase (`submit_blocked` when the guard returns
early, `submit_go` otherwise) and its settle phase (`settle`), between
which other events may interleave.  `handleHistoryClick` funnels into the
same two submit events.  `rate`, `typeInput` and `aiReady` are the other
state updates (`aiReady` models the init effect installing the chat
session). -/
inductive UiStep : UiConfig → UiConfig → Prop
  | submit_blocked {st : AppState} {p overrideText : Option String}
      (h : guardBlocks st overrideText = true) :
      UiStep ⟨st, p⟩ ⟨st, p⟩
  | submit_go {st : AppState} {p overrideText : Option String} {uid mid : String}
      (h : guardBlocks st overrideText = false) :
      UiStep ⟨st, p⟩ ⟨handleSendStart st overrideText uid mid, some mid⟩
  | settle {st : AppState} {mid : String} {env : SendEnv} :
      UiStep ⟨st, some mid⟩ ⟨(handleSendSettle st mid env).state, none⟩
  | rate {st : AppState} {p : Option String} {msgId : String} {r : Nat} :
      UiStep ⟨st, p⟩ ⟨handleRating st msgId r, p⟩
  | typeInput {st : AppState} {p : Option String} {t : String} :
      UiStep ⟨st, p⟩ ⟨setInputText st t, p⟩
  | aiReady {st : AppState} {p : Option String} :
      UiStep ⟨st, p⟩ ⟨{ st with hasChatSession := true }, p⟩

/-- The configurations reachable from the initial one. -/
def Reachable (c : UiConfig) : Prop := Relation.ReflTransGen UiStep initConfig c

/-- How many messages are in the non-terminal `thinking` state. -/
def thinkingCount (msgs : List ChatMessage) : Nat :=
  (msgs.filter (fun m => m.isThinking)).length

/-- The controller invariant: with no turn in flight the flag is down and
nothing is thinking; with a turn in flight the flag is up, every thinking
message is that turn's placeholder, and at most one message is
thinking. -/
def UiInv : UiConfig → Prop
  | ⟨st, none⟩ => st.isProcessing = false ∧ thinkingCount st.messages = 0
  | ⟨st, some mid⟩ =>
      st.isProcessing = true ∧
      (∀ m ∈ st.messages, m.isThinking = true → m.id = mid) ∧
      thinkingCount st.messages ≤ 1

theorem thinkingCount_append (l₁ l₂ : List ChatMessage) :
    thinkingCount (l₁ ++ l₂) = thinkingCount l₁ + thinkingCount l₂ := by
  simp [thinkingCount, List.filter_append]

theorem thinkingCount_eq_zero_iff {l : List ChatMessage} :
    thinkingCount l = 0 ↔ ∀ m ∈ l, m.isThinking = false := by
  simp [thinkingCount, List.length_eq_zero, List.filter_eq_nil_iff]

theorem thinkingCount_map {g : ChatMessage → ChatMessage}
    (hg : ∀ m, (g m).isThinking = m.isThinking) (l : List ChatMessage) :
    thinkingCount (l.map g) = thinkingCount l := by
  induction l with
  | nil => rfl
  | cons a t ih =>
    simp only [List.map_cons, thinkingCount, List.filter_cons, hg a] at *
    cases a.isThinking <;> simp_all

theorem thinking_id_map {l : List ChatMessage} {mid : String}
    {g : ChatMessage → ChatMessage}
    (hg : ∀ m, (g m).isThinking = m.isThinking ∧ (g m).id = m.id)
    (hl : ∀ m ∈ l, m.isThinking = true → m.id = mid) :
    ∀ m ∈ l.map g, m.isThinking = true → m.id = mid := by
  intro m' hm' hth
  rcases List.mem_map.mp hm' with ⟨m, hm, rfl⟩
  rw [(hg m).2]
  exact hl m hm (by rw [← (hg m).1]; exact hth)

theorem thinkingCount_update_zero {l : List ChatMessage} {mid : String}
    {f : ChatMessage → ChatMessage}
    (hl : ∀ m ∈ l, m.isThinking = true → m.id = mid)
    (hf : ∀ m, (f m).isThinking = false) :
    thinkingCount (updateMsg l mid f) = 0 := by
  rw [thinkingCount_eq_zero_iff]
  intro m' hm'
  rcases List.mem_map.mp hm' with ⟨m, hm, rfl⟩
  by_cases h : m.id = mid
  · simp [h, hf]
  · simp only [h, if_false]
    cases hth : m.isThinking
    · rfl
    · exact absurd (hl m hm hth) h

/-- The mapper of an `updateMsg` whose per-match function preserves the
`isThinking` and `id` fields itself preserves those fields. -/
theorem updateMsg_preserves {mid : String} {f : ChatMessage → ChatMessage}
    (hf : ∀ m, (f m).isThinking = m.isThinking ∧ (f m).id = m.id) :
    ∀ m : ChatMessage,
      ((if m.id = mid then f m else m).isThinking = m.isThinking ∧
       (if m.id = mid then f m else m).id = m.id) := by
  intro m
  by_cases h : m.id = mid <;> simp [h, hf]

/-- Each controller event preserves the invariant. -/
theorem uiInv_step {c c' : UiConfig} (h : UiStep c c') (hInv : UiInv c) : UiInv c' := by
  cases h with
  | submit_blocked h => exact hInv
  | @submit_go st p overrideText uid mid h =>
    have hproc : st.isProcessing = false := by
      simp only [guardBlocks, Bool.or_eq_false_iff] at h
      exact h.1.2
    cases p with
    | some mid' => exact absurd hInv.1 (by simp [hproc])
    | none =>
      obtain ⟨-, hcount⟩ := hInv
      have hnone : ∀ m ∈ st.messages, m.isThinking = false :=
        thinkingCount_eq_zero_iff.mp hcount
      refine ⟨rfl, ?_, ?_⟩
      · intro m hm hth
        simp only [handleSendStart, List.mem_append, List.mem_cons,
          List.not_mem_nil, or_false] at hm
        rcases hm with hm | hm | hm
        · exact absurd hth (by simp [hnone m hm])
        · subst hm; simp at hth
        · subst hm; rfl
      · have : thinkingCount (handleSendStart st overrideText uid mid).messages =
            thinkingCount st.messages + 1 := by
          simp [handleSendStart, thinkingCount_append, thinkingCount]
        omega
  | @settle st mid env =>
    obtain ⟨hproc, hids, -⟩ := hInv
    obtain ⟨gen, fetch, elapsed⟩ := env
    cases gen with
    | sendThrows msg =>
      exact ⟨rfl, thinkingCount_update_zero hids (fun m => rfl)⟩
    | parseThrows msg =>
      exact ⟨rfl, thinkingCount_update_zero hids (fun m => rfl)⟩
    | parsed sqlQuery explanation =>
      have hids1 : ∀ m ∈ updateMsg st.messages mid
          (fun m => { m with text := explanation, sql := sqlQuery }),
          m.isThinking = true → m.id = mid :=
        thinking_id_map (updateMsg_preserves (fun m => ⟨rfl, rfl⟩)) hids
      cases fetch with
      | fetchThrows msg =>
        exact ⟨rfl, thinkingCount_update_zero hids1 (fun m => rfl)⟩
      | nonJsonBody ok body =>
        exact ⟨rfl, thinkingCount_update_zero hids1 (fun m => rfl)⟩
      | jsonBody ok rows fields err =>
        exact ⟨rfl, thinkingCount_update_zero hids1 (fun m => rfl)⟩
  | @rate st p msgId r =>
    have hpres : ∀ m : ChatMessage,
        ((if m.id = msgId then { m with rating := some r } else m).isThinking =
          m.isThinking ∧
         (if m.id = msgId then { m with rating := some r } else m).id = m.id) :=
      updateMsg_preserves (fun m => ⟨rfl, rfl⟩)
    cases p with
    | none =>
      exact ⟨hInv.1, by
        rw [handleRating]
        simpa [thinkingCount_map (fun m => (hpres m).1)] using hInv.2⟩
    | some mid =>
      exact ⟨hInv.1, thinking_id_map hpres hInv.2.1, by
        rw [handleRating]
        simpa [thinkingCount_map (fun m => (hpres m).1)] using hInv.2.2⟩
  | @typeInput st p t =>
    cases p <;> exact hInv
  | @aiReady st p =>
    cases p <;> exact hInv

/-- Every reachable configuration satisfies the invariant. -/
theorem uiInv_reachable {c : UiConfig} (h : Reachable c) : UiInv c := by
  induction h with
  | refl => exact ⟨rfl, rfl⟩
  | tail hsteps hstep ih => exact uiInv_step hstep ih

/-- C1: a request whose `sql` contains, case-insensitively, one of the
keywords DROP, DELETE, TRUNCATE, UPDATE, INSERT followed by a space (in
particular any standalone-token occurrence of a keyword followed by a
space) is answered with HTTP 403 and the policy-violation message, and no
connection is acquired from the pool: the denylist check returns before
`pool.connect` is reached. -/
theorem denylist_keyword_rejected (db : DbBehavior) (s pre suf kw : String)
    (hkw : kw ∈ DENY_KEYWORDS)
    (hocc : jsToUpperCase s = pre ++ kw ++ " " ++ suf) :
    apiQueryHandler db (some s) = ⟨⟨403, .failure POLICY_MSG⟩, 0, 0⟩ := by
  have hs : s ≠ "" := by
    intro e
    subst e
    rw [show jsToUpperCase "" = "" from rfl] at hocc
    simp only [String.ext_iff, String.data_append] at hocc
    simp at hocc
  have hf : jsFalsy (some s) = false := by simp [jsFalsy, hs]
  have hd : denylisted s = true := by
    have hinf : kw.data ++ [' '] <:+: (jsToUpperCase s).data := by
      refine ⟨pre.data, suf.data, ?_⟩
      rw [hocc]
      simp [String.data_append]
    have hincl : strIncludes (jsToUpperCase s) (kw ++ " ") = true := by
      simp only [strIncludes, decide_eq_true_eq]
      simpa [String.data_append] using hinf
    simp only [denylisted, List.any_eq_true]
    exact ⟨kw, hkw, hincl⟩
  simp [apiQueryHandler, apiQueryHandlerWith, hf, hd]

theorem denylist_keyword_rejected_witness :
    apiQueryHandler dbDemo (some "drop TABLE invoice_raw") =
      ⟨⟨403, .failure POLICY_MSG⟩, 0, 0⟩ :=
  denylist_keyword_rejected dbDemo "drop TABLE invoice_raw" "" "TABLE INVOICE_RAW" "DROP"
    (by decide) (by decide)

/-- C4: a request whose body has a missing or empty `sql` field is
answered with HTTP 400 and an error message, and no connection is
acquired and no query is run: this check precedes the denylist check and
any database interaction. -/
theorem missing_sql_rejected (db : DbBehavior) (sql : Option String)
    (h : jsFalsy sql = true) :
    apiQueryHandler db sql = ⟨⟨400, .failure SQL_REQUIRED_MSG⟩, 0, 0⟩ := by
  simp [apiQueryHandler, apiQueryHandlerWith, h]

theorem missing_sql_rejected_witness :
    apiQueryHandler dbDemo none = ⟨⟨400, .failure SQL_REQUIRED_MSG⟩, 0, 0⟩ :=
  missing_sql_rejected dbDemo none rfl

/-- C3: a request that passes the validation and denylist checks and
acquires a pool connection releases it exactly once, on every exit path:
whether the query succeeds or throws, the trace records one acquisition
and one release. -/
theorem query_connection_released (db : DbBehavior) (s : String)
    (h1 : jsFalsy (some s) = false) (h2 : denylisted s = false)
    (h3 : db.connect = .ok ()) :
    (apiQueryHandler db (some s)).acquired = 1 ∧
    (apiQueryHandler db (some s)).released = 1 := by
  rcases hq : db.query s with msg | r <;>
    simp [apiQueryHandler, apiQueryHandlerWith, h1, h2, h3, hq]

theorem query_connection_released_witness :
    (apiQueryHandler dbFailDemo (some "SELECT 1")).acquired = 1 ∧
    (apiQueryHandler dbFailDemo (some "SELECT 1")).released = 1 :=
  query_connection_released dbFailDemo "SELECT 1" (by decide) (by decide) rfl

/-- C5: a query that succeeds — even with zero rows — is answered with
HTTP 200 and the success body shape (rows and fields, no error string by
construction of `RespBody.success`), while a query that throws is
answered with HTTP 400 and the failure body shape (an error string and no
rows or fields, by construction of `RespBody.failure`). -/
theorem success_and_error_responses (db : DbBehavior) (s : String) (r : QueryResult)
    (msg : String) (h1 : jsFalsy (some s) = false) (h2 : denylisted s = false)
    (h3 : db.connect = .ok ()) :
    (db.query s = .ok r →
      (apiQueryHandler db (some s)).resp = ⟨200, .success r.rows r.rowCount r.fields⟩) ∧
    (db.query s = .error msg →
      (apiQueryHandler db (some s)).resp = ⟨400, .failure msg⟩) := by
  constructor <;> intro hq <;>
    simp [apiQueryHandler, apiQueryHandlerWith, h1, h2, h3, hq]

theorem success_and_error_responses_witness :
    (apiQueryHandler dbDemo (some "SELECT 1")).resp = ⟨200, .success [] 0 []⟩ :=
  (success_and_error_responses dbDemo "SELECT 1" ⟨[], 0, []⟩ "unused"
    (by decide) (by decide) rfl).1 rfl

/-- C7: the gateway's safety check is exactly a substring test — a request
with a string `sql` draws the 403 policy response if and only if the
upper-cased SQL contains one of the five space-suffixed keywords as a
substring.  Consequently a read-only SELECT that merely contains
`UPDATE ` (here inside a trailing SQL comment) is rejected with 403
(false positive), while a mutating DELETE whose keyword is followed by a
newline instead of a space passes the guard and reaches execution, with a
connection acquired (false negative). -/
theorem denylist_is_exact_substring_check :
    (∀ (db : DbBehavior) (s : String),
        ((apiQueryHandler db (some s)).resp.status = 403 ∧
          (apiQueryHandler db (some s)).resp.body = .failure POLICY_MSG) ↔
        denylisted s = true) ∧
    (apiQueryHandler dbDemo (some "SELECT 1 -- no UPDATE aqui")).resp.status = 403 ∧
    (apiQueryHandler dbDemo (some "DELETE\nFROM invoice_raw")).acquired = 1 := by
  refine ⟨?_, by decide, by decide⟩
  intro db s
  constructor
  · rintro ⟨hst, -⟩
    by_contra hdeny
    rw [Bool.not_eq_true] at hdeny
    by_cases hf : jsFalsy (some s) = true
    · simp [apiQueryHandler, apiQueryHandlerWith, hf] at hst
    · rw [Bool.not_eq_true] at hf
      rcases hc : db.connect with msg | u
      · simp [apiQueryHandler, apiQueryHandlerWith, hf, hdeny, hc] at hst
      · rcases hq : db.query s with msg | r <;>
          simp [apiQueryHandler, apiQueryHandlerWith, hf, hdeny, hc, hq] at hst
  · intro hdeny
    have hs : jsFalsy (some s) = false := by
      rcases Bool.eq_false_or_eq_true (jsFalsy (some s)) with htrue | hfalse
      · have he : s = "" := by simpa [jsFalsy] using htrue
        subst he
        exact absurd hdeny (by decide)
      · exact hfalse
    simp [apiQueryHandler, apiQueryHandlerWith, hs, hdeny]

theorem denylist_is_exact_substring_check_witness :
    (apiQueryHandler dbDemo (some "DROP TABLE sales_plan")).resp.status = 403 ∧
    (apiQueryHandler dbDemo (some "DROP TABLE sales_plan")).resp.body =
      .failure POLICY_MSG :=
  (denylist_is_exact_substring_check.1 dbDemo "DROP TABLE sales_plan").mpr (by decide)

/-- C8: when the database rejects or fails a statement, the gateway
answers HTTP 400 with an `error` field equal verbatim to the driver
error's message — no translation or categorisation happens in the
gateway. -/
theorem db_error_passthrough (db : DbBehavior) (s msg : String)
    (h1 : jsFalsy (some s) = false) (h2 : denylisted s = false)
    (h3 : db.connect = .ok ()) (h4 : db.query s = .error msg) :
    (apiQueryHandler db (some s)).resp = ⟨400, .failure msg⟩ := by
  simp [apiQueryHandler, apiQueryHandlerWith, h1, h2, h3, h4]

theorem db_error_passthrough_witness :
    (apiQueryHandler dbFailDemo (some "SELECT nope")).resp =
      ⟨400, .failure "relation does not exist"⟩ :=
  db_error_passthrough dbFailDemo "SELECT nope" "relation does not exist"
    (by decide) (by decide) rfl rfl

/-- C10: in the `/api/health` handler, if the round-trip query throws
after a connection was acquired, the connection is never released
(`client.release()` sits on the success path only): the probe answers 500
having acquired one connection and released none — a leak — whereas the
`/api/query` handler with the same failing database releases its
connection. -/
theorem health_probe_leaks_connection (db : DbBehavior) (msg : String)
    (h1 : db.connect = .ok ()) (h2 : db.query "SELECT NOW()" = .error msg) :
    (apiHealthHandler db).acquired = 1 ∧ (apiHealthHandler db).released = 0 ∧
    (apiHealthHandler db).status = 500 ∧
    (apiQueryHandler db (some "SELECT NOW()")).released = 1 := by
  have hf : jsFalsy (some "SELECT NOW()") = false := by decide
  have hd : denylisted "SELECT NOW()" = false := by decide
  refine ⟨?_, ?_, ?_, ?_⟩ <;>
    simp [apiHealthHandler, apiQueryHandler, apiQueryHandlerWith, h1, h2, hf, hd]

theorem health_probe_leaks_connection_witness :
    (apiHealthHandler dbFailDemo).acquired = 1 ∧
    (apiHealthHandler dbFailDemo).released = 0 ∧
    (apiHealthHandler dbFailDemo).status = 500 ∧
    (apiQueryHandler dbFailDemo (some "SELECT NOW()")).released = 1 :=
  health_probe_leaks_connection dbFailDemo "relation does not exist" rfl rfl

theorem getLast?_append_two (l : List ChatMessage) (a b : ChatMessage) :
    (l ++ [a, b]).getLast? = some b := by
  rw [show l ++ [a, b] = (l ++ [a]) ++ [b] from by simp]
  simp

theorem getLast?_updateMsg (l : List ChatMessage) (mid : String)
    (f : ChatMessage → ChatMessage) :
    (updateMsg l mid f).getLast? =
      l.getLast?.map (fun m => if m.id = mid then f m else m) := by
  simp [updateMsg, List.getLast?_map]

/-- Both settle phases of a turn clear `isProcessing` and leave the chat
session handle untouched, whatever the generate and execute outcomes. -/
theorem handleSendSettle_flags (st : AppState) (mid : String) (env : SendEnv) :
    (handleSendSettle st mid env).state.isProcessing = false ∧
    (handleSendSettle st mid env).state.hasChatSession = st.hasChatSession := by
  obtain ⟨gen, fetch, elapsed⟩ := env
  cases gen with
  | sendThrows msg => exact ⟨rfl, rfl⟩
  | parseThrows msg => exact ⟨rfl, rfl⟩
  | parsed sq ex => cases fetch <;> exact ⟨rfl, rfl⟩

/-- C9: every turn that passes the submit guard (and hence reaches the
settle step) ends with the in-flight flag `isProcessing` cleared — this
covers both the success outcome (result set populated) and every failure
outcome, since `env` ranges over all generate and execute outcomes.
Consequently a next submit with non-blank input is permitted again. -/
theorem settle_clears_in_flight (st : AppState) (overrideText : Option String)
    (env : SendEnv) (uid mid : String) (h : guardBlocks st overrideText = false) :
    (handleSend st overrideText env uid mid).state.isProcessing = false ∧
    (∀ t : String, jsTrim t ≠ "" → st.hasChatSession = true →
      guardBlocks (handleSend st overrideText env uid mid).state (some t) = false) := by
  have hsend : handleSend st overrideText env uid mid =
      handleSendSettle (handleSendStart st overrideText uid mid) mid env := by
    simp [handleSend, h]
  have hflags := handleSendSettle_flags (handleSendStart st overrideText uid mid) mid env
  constructor
  · rw [hsend]
    exact hflags.1
  · intro t ht hsess
    have htne : t ≠ "" := by
      intro he
      exact ht (by rw [he]; rfl)
    have hses : (handleSend st overrideText env uid mid).state.hasChatSession = true := by
      rw [hsend, hflags.2]
      simpa [handleSendStart] using hsess
    have hproc : (handleSend st overrideText env uid mid).state.isProcessing = false := by
      rw [hsend]; exact hflags.1
    simp [guardBlocks, jsOr, htne, ht, hproc, hses]

theorem settle_clears_in_flight_witness :
    (handleSend ⟨[initMessage], "hola", false, true⟩ none
        ⟨.sendThrows "boom", .fetchThrows "x", 0⟩ "u" "m").state.isProcessing = false :=
  (settle_clears_in_flight ⟨[initMessage], "hola", false, true⟩ none
    ⟨.sendThrows "boom", .fetchThrows "x", 0⟩ "u" "m" (by decide)).1

/-- C6: calling `handleSend` while a turn is in flight is a no-op — the
guard returns before any state update, so the exchange list does not grow
and nothing changes — and consequently in every reachable controller
configuration at most one message is in the non-terminal `thinking`
state. -/
theorem submit_in_flight_noop :
    (∀ (st : AppState) (overrideText : Option String) (env : SendEnv) (uid mid : String),
        st.isProcessing = true →
        handleSend st overrideText env uid mid = ⟨st, false, none⟩) ∧
    (∀ c : UiConfig, Reachable c → thinkingCount c.app.messages ≤ 1) := by
  constructor
  · intro st overrideText env uid mid h
    have hg : guardBlocks st overrideText = true := by
      simp [guardBlocks, h]
    simp [handleSend, hg]
  · intro c hc
    have hInv := uiInv_reachable hc
    rcases c with ⟨st, p⟩
    cases p with
    | none => simp [hInv.2]
    | some mid => exact hInv.2.2

theorem submit_in_flight_noop_witness :
    handleSend ⟨[initMessage], "muestra el plan", true, true⟩ none
        ⟨.sendThrows "x", .fetchThrows "x", 0⟩ "u" "m" =
      ⟨⟨[initMessage], "muestra el plan", true, true⟩, false, none⟩ ∧
    thinkingCount initConfig.app.messages ≤ 1 :=
  ⟨submit_in_flight_noop.1 ⟨[initMessage], "muestra el plan", true, true⟩ none
      ⟨.sendThrows "x", .fetchThrows "x", 0⟩ "u" "m" rfl,
   submit_in_flight_noop.2 initConfig Relation.ReflTransGen.refl⟩

/-- C2 (amended): a model reply that fails structured parsing — the reply
text is not valid JSON, or parses to `null` so that destructuring throws
— settles the placeholder into the error state without the execute step
being called.  But a reply that is valid JSON and merely lacks the
`sqlQuery` field does NOT skip the execute step: `handleSend` still
issues the `/api/query` fetch, with a request body carrying no usable
`sql` (`JSON.stringify({sql: undefined})`), and the gateway's 400
`"SQL query is required"` response is what settles the placeholder into
the error state. -/
theorem malformed_model_reply (st : AppState) (overrideText : Option String)
    (uid mid : String) (h : guardBlocks st overrideText = false) :
    (∀ (msg : String) (fo : FetchOutcome) (t : Nat),
        (handleSend st overrideText ⟨.parseThrows msg, fo, t⟩ uid mid).executeCalled
          = false ∧
        (handleSend st overrideText ⟨.parseThrows msg, fo, t⟩ uid mid).state.messages.getLast?
          = some { id := mid, role := .model, text := some APOLOGY, error := some msg,
                   isThinking := false }) ∧
    (∀ (e : Option String) (t : Nat),
        (handleSend st overrideText
            ⟨.parsed none e, .jsonBody false [] [] (some SQL_REQUIRED_MSG), t⟩
            uid mid).executeCalled = true ∧
        (handleSend st overrideText
            ⟨.parsed none e, .jsonBody false [] [] (some SQL_REQUIRED_MSG), t⟩
            uid mid).executeBody = some none ∧
        (handleSend st overrideText
            ⟨.parsed none e, .jsonBody false [] [] (some SQL_REQUIRED_MSG), t⟩
            uid mid).state.messages.getLast?
          = some { id := mid, role := .model, text := e,
                   error := some SQL_REQUIRED_MSG, executionTime := some t,
                   isThinking := false }) := by
  have hmsgreq : SQL_REQUIRED_MSG ≠ "" := by decide
  constructor
  · intro msg fo t
    constructor
    · simp [handleSend, h, handleSendSettle]
    · simp only [handleSend, h, Bool.false_eq_true, if_false, handleSendSettle,
        handleSendStart, catchUpdate, getLast?_updateMsg, getLast?_append_two,
        Option.map_some]
      simp [jsOr]
  · intro e t
    refine ⟨?_, ?_, ?_⟩
    · simp [handleSend, h, handleSendSettle]
    · simp [handleSend, h, handleSendSettle]
    · simp only [handleSend, h, Bool.false_eq_true, if_false, handleSendSettle,
        handleSendStart, getLast?_updateMsg, getLast?_append_two, Option.map_some]
      simp [jsOr, hmsgreq]

theorem malformed_model_reply_witness :
    (handleSend ⟨[initMessage], "ventas por region", false, true⟩ none
        ⟨.parseThrows "Unexpected token", .fetchThrows "unused", 0⟩
        "u1" "m1").executeCalled = false ∧
    (handleSend ⟨[initMessage], "ventas por region", false, true⟩ none
        ⟨.parsed none (some "claro"), .jsonBody false [] [] (some SQL_REQUIRED_MSG), 0⟩
        "u1" "m1").executeCalled = true :=
  ⟨((malformed_model_reply ⟨[initMessage], "ventas por region", false, true⟩ none
      "u1" "m1" (by decide)).1 "Unexpected token" (.fetchThrows "unused") 0).1,
   ((malformed_model_reply ⟨[initMessage], "ventas por region", false, true⟩ none
      "u1" "m1" (by decide)).2 (some "claro") 0).1⟩

/-- C2 counterexample: from the ready initial state, a model reply that is
valid JSON but lacks the `sqlQuery` field (so destructuring yields
`undefined`, not an exception) still reaches the execute step — the
`/api/query` fetch IS issued for that turn, refuting the claim that the
turn settles into error without ever calling the execute step. -/
theorem missing_sqlQuery_still_executes :
    (handleSend ⟨[initMessage], "muestra las facturas", false, true⟩ none
        ⟨.parsed none (some "claro"), .jsonBody false [] [] (some SQL_REQUIRED_MSG), 5⟩
        "u1" "m1").executeCalled = true := by decide

end InvoiceChat
